import Mathlib

/-!
# Verification of the statpulse weekly health report generator

A shallow embedding of `scripts/generate-weekly-report.js` (the Weekly
Aggregator / KPI classifier of the statpulse monitoring pipeline) together
with proofs about its statistical aggregation, KPI classification, report
rendering and error handling.

Modelling conventions:

* JavaScript numbers are modelled as `ℚ` (every value manipulated by the
  script is a small integer or a short decimal, far below any double
  rounding); `Number.prototype.toFixed(d)` followed by `parseFloat` is
  modelled as rounding half-up to `d` decimal places, and `Math.round` as
  rounding half-up to an integer, which is the behaviour of those
  operations on the magnitudes involved.
* A JavaScript value that may be a number, `null`, `undefined` or `NaN`
  (as produced by the optional-chaining expressions of `buildIssueBody`)
  is modelled by the inductive type `JsVal`.
* `null`/absent record fields are modelled with `Option`.
* A thrown `TypeError` is modelled with `Except Unit`.
* The wall clock (`new Date()`, `Date.now()`) and the ISO rendering of
  dates are passed in explicitly (`generatedAt`, `Clock`), so that the
  embedded functions are honest functions of all their inputs.
-/

namespace StatPulse

/-! ## Named constants (lines 22-35 of the source) -/

/-- Number of calendar days to include in each weekly report. -/
def REPORT_WINDOW_DAYS : ℤ := 7

/-- Uptime percentage that satisfies the api-availability KPI target. -/
def UPTIME_KPI_TARGET_PCT : ℚ := 99.5

/-- Average response time (ms) that satisfies the api-response-time KPI target. -/
def RESPONSE_KPI_TARGET_MS : ℚ := 3000

/-- Uptime percentage below which availability is considered critical. -/
def UPTIME_CRITICAL_THRESHOLD_PCT : ℚ := 95

/-- The fixed endpoint list, in source order. -/
def ENDPOINT_NAMES : List String := ["Structures", "Data Query", "Codelists"]

/-! ## Data model -/

/-- One measurement record of the health log.  `timestampMs` is the result
of parsing the record's `timestamp` string with `new Date(...)`: `some t`
when it parses to the epoch-millisecond instant `t`, `none` when the field
is missing or unparseable (an Invalid Date, whose every ordering comparison
is false).  `anomalyDetected` models the truthiness of `r.anomaly?.detected`
and `extraMetricValue` models `r.extraMetric?.value ?? null`. -/
structure HealthRecord where
  timestampMs : Option ℤ
  endpoint : String
  ok : Bool
  responseTimeMs : Option ℤ
  contentTypeValid : Bool
  anomalyDetected : Bool
  extraMetricValue : Option ℤ
  deriving DecidableEq, Repr

/-- Output of `computeEndpointStats` when the endpoint has records. -/
structure EndpointStats where
  uptimePercent : ℚ
  avgResponseMs : Option ℤ
  minResponseMs : Option ℤ
  maxResponseMs : Option ℤ
  anomalyCount : ℕ
  latestExtraMetric : Option ℤ
  deriving DecidableEq, Repr

/-- The `stats` object of `main`: endpoint name to per-endpoint stats,
`none` modelling the JavaScript `null` stored for an endpoint with no
records in the window. -/
def StatsMap : Type := String → Option EndpointStats

/-! ## Numeric helpers (toFixed / Math.round) -/

/-- Model of `parseFloat(q.toFixed(2))`: round half-up to 2 decimal places. -/
def round2 (q : ℚ) : ℚ := ((⌊q * 100 + 1/2⌋ : ℤ) : ℚ) / 100

/-- Model of `parseFloat(q.toFixed(1))`: round half-up to 1 decimal place. -/
def round1 (q : ℚ) : ℚ := ((⌊q * 10 + 1/2⌋ : ℤ) : ℚ) / 10

/-- Model of `Math.round(q)`: round half-up (toward +∞ on ties) to an integer. -/
def jsRound (q : ℚ) : ℤ := ⌊q + 1/2⌋

/-! ## computeEndpointStats (lines 106-132 of the source) -/

/-- Embedding of `computeEndpointStats(records, endpointName)`: summary statistics for
one endpoint over the already-filtered window, or `none` when the endpoint
has no records there.  `validTimes` keeps exactly the records whose
`responseTimeMs !== null`, as in the source. -/
def computeEndpointStats (records : List HealthRecord) (endpointName : String) :
    Option EndpointStats :=
  let endpointRecords := records.filter (fun r => r.endpoint == endpointName)
  if endpointRecords.isEmpty then none
  else
    let okCount := (endpointRecords.filter (fun r => r.ok)).length
    let uptimePercent := round2 ((okCount : ℚ) / (endpointRecords.length : ℚ) * 100)
    let validTimes : List ℤ := endpointRecords.filterMap (fun r => r.responseTimeMs)
    let avgResponseMs :=
      if validTimes.isEmpty then none
      else some (jsRound ((validTimes.sum : ℚ) / (validTimes.length : ℚ)))
    let minResponseMs :=
      match validTimes with
      | [] => none
      | t :: ts => some (ts.foldl min t)
    let maxResponseMs :=
      match validTimes with
      | [] => none
      | t :: ts => some (ts.foldl max t)
    let anomalyCount := (endpointRecords.filter (fun r => r.anomalyDetected)).length
    let latestExtraMetric := endpointRecords.getLast?.bind (fun r => r.extraMetricValue)
    some { uptimePercent := uptimePercent, avgResponseMs := avgResponseMs,
           minResponseMs := minResponseMs, maxResponseMs := maxResponseMs,
           anomalyCount := anomalyCount, latestExtraMetric := latestExtraMetric }

/-! ## JavaScript value domain for the aggregate KPI computations

`buildIssueBody` mixes numbers, `null`, `undefined` (from optional chaining
on a `null` stats entry) and, consequently, `NaN`.  `JsVal` captures
exactly those. -/

inductive JsVal where
  | num (q : ℚ)
  | nan
  | null
  | undef
  deriving DecidableEq, Repr

/-- The strict comparison `v !== null` (true for numbers, `NaN` and —
crucially — `undefined`). -/
def jsStrictNeNull : JsVal → Bool
  | .null => false
  | _ => true

/-- JavaScript `+` on the values that can appear in the aggregate sums:
`undefined` (and `NaN`) poison the sum to `NaN`; `null` coerces to `0`. -/
def jsAdd : JsVal → JsVal → JsVal
  | .num a, .num b => .num (a + b)
  | .num a, .null => .num a
  | .null, .num b => .num b
  | .null, .null => .num 0
  | _, _ => .nan

/-- Model of `list.reduce((a, b) => a + b, 0)`. -/
def jsSum (l : List JsVal) : JsVal := l.foldl jsAdd (.num 0)

/-- Division of an aggregate sum by a (positive, by the guarding
`length ?` check) element count. -/
def jsDivNat (v : JsVal) (n : ℕ) : JsVal :=
  match v with
  | .num a => .num (a / (n : ℚ))
  | _ => .nan

/-- Model of `parseFloat(v.toFixed(2))`; `NaN.toFixed(2)` is `"NaN"` and parses back
to `NaN`.  (`null`/`undefined` never reach this point in the source.) -/
def jsToFixed2 : JsVal → JsVal
  | .num a => .num (round2 a)
  | _ => .nan

/-- Model of `parseFloat(v.toFixed(1))`, as above. -/
def jsToFixed1 : JsVal → JsVal
  | .num a => .num (round1 a)
  | _ => .nan

/-- Model of `Math.round(v)`; `Math.round(NaN)` is `NaN`. -/
def jsMathRound : JsVal → JsVal
  | .num a => .num ((jsRound a : ℤ) : ℚ)
  | _ => .nan

/-- The relational comparison `v >= q` (false whenever `v` is `NaN` or
`undefined`; `null` coerces to `0`). -/
def jsGe (v : JsVal) (q : ℚ) : Bool :=
  match v with
  | .num a => decide (q ≤ a)
  | .null => decide (q ≤ 0)
  | _ => false

/-- The relational comparison `v <= q`. -/
def jsLe (v : JsVal) (q : ℚ) : Bool :=
  match v with
  | .num a => decide (a ≤ q)
  | .null => decide (0 ≤ q)
  | _ => false

/-! ## kpiEmoji (lines 156-167 of the source) -/

inductive KpiDirection where
  | higher
  | lower
  deriving DecidableEq, Repr

/-- Embedding of `kpiEmoji(value, target, direction)`: status glyph for a KPI value
against its target.  The `null` check precedes every comparison, exactly as
in the source. -/
def kpiEmoji (value : JsVal) (target : ℚ) (direction : KpiDirection) : String :=
  match value with
  | .null => "—"
  | v =>
    match direction with
    | .higher =>
      if jsGe v target then "✅"
      else if jsGe v UPTIME_CRITICAL_THRESHOLD_PCT then "⚠️"
      else "🔴"
    | .lower =>
      if jsLe v target then "✅"
      else if jsLe v (target * 1.5) then "⚠️"
      else "🔴"

/-! ## The aggregate KPI values of buildIssueBody (lines 188-204) -/

/-- Line 189: `ENDPOINT_NAMES.map(n => stats[n]?.uptimePercent).filter(v => v !== null)`.
When `stats[n]` is `null`, optional chaining yields `undefined`, which
passes the `v !== null` filter. -/
def validUptimesOf (stats : StatsMap) : List JsVal :=
  (ENDPOINT_NAMES.map (fun n =>
    match stats n with
    | none => JsVal.undef
    | some s => JsVal.num s.uptimePercent)).filter jsStrictNeNull

/-- Line 190, likewise for `avgResponseMs` (which can itself be `null`
inside a non-null stats entry). -/
def validAvgMsOf (stats : StatsMap) : List JsVal :=
  (ENDPOINT_NAMES.map (fun n =>
    match stats n with
    | none => JsVal.undef
    | some s =>
      match s.avgResponseMs with
      | none => JsVal.null
      | some m => JsVal.num (m : ℚ))).filter jsStrictNeNull

/-- Lines 192-194: overall uptime aggregate. -/
def overallUptimePctOf (stats : StatsMap) : JsVal :=
  let validUptimes := validUptimesOf stats
  if validUptimes.length = 0 then JsVal.null
  else jsToFixed2 (jsDivNat (jsSum validUptimes) validUptimes.length)

/-- Lines 195-197: overall average-latency aggregate. -/
def overallAvgMsOf (stats : StatsMap) : JsVal :=
  let validAvgMs := validAvgMsOf stats
  if validAvgMs.length = 0 then JsVal.null
  else jsMathRound (jsDivNat (jsSum validAvgMs) validAvgMs.length)

/-- Lines 199-204: content-type validity across the whole window (all
endpoints combined), `null` when no `ok` record exists. -/
def contentTypeValidityPctOf (recentRecords : List HealthRecord) : JsVal :=
  let okRecords := recentRecords.filter (fun r => r.ok)
  let validCtRecords := okRecords.filter (fun r => r.contentTypeValid)
  if okRecords.length = 0 then JsVal.null
  else JsVal.num (round1 ((validCtRecords.length : ℚ) / (okRecords.length : ℚ) * 100))

/-! ## The overall assessment (lines 206-220) -/

/-- Lines 207-209: `ENDPOINT_NAMES.some(n => stats[n]?.uptimePercent !== null
&& stats[n].uptimePercent < UPTIME_CRITICAL_THRESHOLD_PCT)`.  When
`stats[n]` is `null` the first conjunct is `undefined !== null`, i.e.
true, and the second conjunct then reads `uptimePercent` of `null` —
a thrown `TypeError`, modelled as `.error ()`. -/
def someUptimeCritical (stats : StatsMap) : List String → Except Unit Bool
  | [] => .ok false
  | n :: rest =>
    match stats n with
    | none => .error ()
    | some s =>
      if s.uptimePercent < UPTIME_CRITICAL_THRESHOLD_PCT then .ok true
      else someUptimeCritical stats rest

/-- Line 210: `validUptimes.every(v => v >= UPTIME_KPI_TARGET_PCT)`. -/
def allUptimeOnTargetOf (stats : StatsMap) : Bool :=
  (validUptimesOf stats).all (fun v => jsGe v UPTIME_KPI_TARGET_PCT)

/-- Line 211: `ENDPOINT_NAMES.some(n => (stats[n]?.anomalyCount ?? 0) > 0)`. -/
def anyAnomaliesOf (stats : StatsMap) : Bool :=
  ENDPOINT_NAMES.any (fun n =>
    decide (0 < (match stats n with
                 | none => 0
                 | some s => s.anomalyCount)))

/-- Lines 213-220: the assessment text, after the (possibly throwing)
critical check. -/
def assessmentOf (stats : StatsMap) : Except Unit String :=
  match someUptimeCritical stats ENDPOINT_NAMES with
  | .error e => .error e
  | .ok anyUptimeCritical =>
    .ok (if anyUptimeCritical then
           "🔴 Critical: availability below acceptable threshold."
         else if !allUptimeOnTargetOf stats || anyAnomaliesOf stats then
           "⚠️ One or more KPI thresholds require attention. Review anomaly log."
         else
           "✅ Platform health is within all KPI targets.")

/-! ## Markdown rendering (lines 222-268) -/

/-- Model of `n.toLocaleString('en-US')` digit grouping on the reversed digit list:
a comma after every third digit while more digits remain. -/
def commaGroup : List Char → List Char
  | d1 :: d2 :: d3 :: d4 :: rest => d1 :: d2 :: d3 :: ',' :: commaGroup (d4 :: rest)
  | l => l

/-- Model of `n.toLocaleString('en-US')` for an integer. -/
def localeString (n : ℤ) : String :=
  let digits := (toString n.natAbs).data
  let grouped := String.mk (commaGroup digits.reverse).reverse
  if n < 0 then "-" ++ grouped else grouped

/-- Embedding of `formatNumber(n)` (lines 141-145): em-dash for `null`/`undefined`,
locale thousand separators otherwise. -/
def formatNumber : Option ℤ → String
  | none => "—"
  | some n => localeString n

/-- Rendering of `q.toFixed(1)` as a string (used with the non-negative
percentages of the report). -/
def toFixed1 (q : ℚ) : String :=
  let n : ℤ := ⌊q * 10 + 1/2⌋
  toString (n / 10) ++ "." ++ toString (n % 10)

/-- Template rendering of an integer-valued aggregate (`Math.round`
results); the non-integer branch is unreachable. -/
def ratIntString (q : ℚ) : String :=
  if q.den = 1 then toString q.num else toString q.num ++ "/" ++ toString q.den

/-- Rendering `${v.toFixed(1)}%` guarded by `v !== null` (lines 259 and 261);
`NaN.toFixed(1)` renders as `"NaN"`. -/
def pctCell : JsVal → String
  | .null => "—"
  | .num q => toFixed1 q ++ "%"
  | _ => "NaN%"

/-- Rendering `${v}ms` guarded by `v !== null` (line 260). -/
def msCell : JsVal → String
  | .null => "—"
  | .num q => ratIntString q ++ "ms"
  | _ => "NaNms"

/-- One cell of the endpoint table: `some` renders the value, `none`
(undefined field of the `{}` fallback) renders the em-dash. -/
def optMsCell : Option ℤ → String
  | none => "—"
  | some m => toString m ++ "ms"

/-- Lines 236-246: one row of the endpoint summary table.  For a `null`
stats entry the source falls back to `{}`, so every field is `undefined`:
the guards render em-dashes and `?? 0` renders the anomaly count as 0. -/
def endpointRow (stats : StatsMap) (name : String) : String :=
  match stats name with
  | none => "| " ++ name ++ " | — | — | — | — | 0 |"
  | some s =>
    "| " ++ name ++ " | " ++ (toFixed1 s.uptimePercent ++ "%") ++ " | " ++
      optMsCell s.avgResponseMs ++ " | " ++ optMsCell s.minResponseMs ++ " | " ++
      optMsCell s.maxResponseMs ++ " | " ++ toString s.anomalyCount ++ " |"

/-- Value of `(stats[name] || {}).latestExtraMetric` for the catalogue section. -/
def latestExtraOf (stats : StatsMap) (name : String) : Option ℤ :=
  match stats name with
  | none => none
  | some s => s.latestExtraMetric

/-- Model of `array.join('\n')`. -/
def joinLines : List String → String
  | [] => ""
  | [x] => x
  | x :: xs => x ++ "\n" ++ joinLines xs

/-- The `lines` array of lines 225-265, joined with `'\n'` by line 267.
`generatedAt` stands for the `new Date().toISOString()` of line 229. -/
def renderReport (stats : StatsMap) (recentRecords : List HealthRecord)
    (reportStart reportEnd generatedAt assessment : String) : String :=
  joinLines
    (["## statpulse Weekly Health Report",
      "",
      "**Period:** " ++ reportStart ++ " → " ++ reportEnd,
      "**Generated:** " ++ generatedAt ++ " UTC",
      "**Total checks:** " ++ toString recentRecords.length ++ " (3 endpoints × " ++
        toString (jsRound ((recentRecords.length : ℚ) / (ENDPOINT_NAMES.length : ℚ))) ++ " runs)",
      "",
      "### Endpoint Summary",
      "",
      "| Endpoint | Uptime | Avg Response | Min | Max | Anomalies |",
      "|---|---|---|---|---|---|"]
     ++ ENDPOINT_NAMES.map (endpointRow stats)
     ++ ["",
      "### Catalogue Metrics (latest)",
      "- **Data Structures (DSDs):** " ++ formatNumber (latestExtraOf stats "Structures"),
      "- **Codelists:** " ++ formatNumber (latestExtraOf stats "Codelists"),
      "",
      "### Assessment",
      assessment,
      "",
      "### KPI Status",
      "",
      "| KPI | Target | This Week | Status |",
      "|---|---|---|---|",
      "| API Availability | ≥ 99.5% | " ++ pctCell (overallUptimePctOf stats) ++ " | " ++
        kpiEmoji (overallUptimePctOf stats) UPTIME_KPI_TARGET_PCT KpiDirection.higher ++ " |",
      "| Avg Response Time | < 3000ms | " ++ msCell (overallAvgMsOf stats) ++ " | " ++
        kpiEmoji (overallAvgMsOf stats) RESPONSE_KPI_TARGET_MS KpiDirection.lower ++ " |",
      "| Content-Type Validity | 100% | " ++ pctCell (contentTypeValidityPctOf recentRecords) ++ " | " ++
        kpiEmoji (contentTypeValidityPctOf recentRecords) 100 KpiDirection.higher ++ " |",
      "",
      "---",
      "*Generated automatically by [statpulse](https://erenkahraman.github.io/statpulse) — SDMX API monitoring for the SIS-CC .Stat Suite platform.*"])

/-- Embedding of `buildIssueBody(stats, recentRecords, reportStart, reportEnd)`, with
the wall-clock read of line 229 passed explicitly as `generatedAt`.
The aggregate values of lines 185-204 are pure; the first observable
effect is the possible `TypeError` of line 208, after which the body is
rendered. -/
def buildIssueBody (stats : StatsMap) (recentRecords : List HealthRecord)
    (reportStart reportEnd generatedAt : String) : Except Unit String :=
  match assessmentOf stats with
  | .error e => .error e
  | .ok assessment =>
    .ok (renderReport stats recentRecords reportStart reportEnd generatedAt assessment)

/-- The Aggregator pipeline of `main` (lines 310-313 and 326): per-endpoint
stats from the filtered window, then the issue body. -/
def aggregatorReport (recentRecords : List HealthRecord)
    (reportStart reportEnd generatedAt : String) : Except Unit String :=
  buildIssueBody (fun n => computeEndpointStats recentRecords n) recentRecords
    reportStart reportEnd generatedAt

/-! ## readLog (lines 66-83) and filterRecentRecords (lines 94-97) -/

/-- What `JSON.parse` produced, abstracted: a (well-formed) array of
records, or any non-array value. -/
inductive ParsedJson where
  | arr (records : List HealthRecord)
  | nonArray
  deriving DecidableEq, Repr

/-- The outcome of `readFileSync` + `JSON.parse` on the log file. -/
inductive LogFileOutcome where
  | enoent
  | readError
  | parseError
  | parsed (v : ParsedJson)
  deriving DecidableEq, Repr

/-- Result of `readLog`: the history actually returned, plus whether a
warning was logged on the way. -/
structure ReadLogResult where
  log : List HealthRecord
  warned : Bool
  deriving DecidableEq, Repr

/-- Embedding of `readLog()`: every failure mode is caught and degrades to the empty
history; only a parsed array is returned as-is.  The function is total —
the `try/catch` of lines 67-82 swallows every throw. -/
def readLog : LogFileOutcome → ReadLogResult
  | .enoent => { log := [], warned := true }
  | .readError => { log := [], warned := true }
  | .parseError => { log := [], warned := true }
  | .parsed .nonArray => { log := [], warned := true }
  | .parsed (.arr a) => { log := a, warned := false }

/-- Embedding of `filterRecentRecords(log, days)` with `Date.now()` passed explicitly:
keeps the records whose parsed timestamp is at or after
`now - days*24*60*60*1000`; a record whose timestamp did not parse
(Invalid Date) fails every comparison and is dropped. -/
def filterRecentRecords (log : List HealthRecord) (days : ℤ) (nowMs : ℤ) :
    List HealthRecord :=
  let cutoff := nowMs - days * (24 * 60 * 60 * 1000)
  log.filter (fun r =>
    match r.timestampMs with
    | none => false
    | some t => decide (cutoff ≤ t))

/-! ## main (lines 285-353) -/

/-- The clock values `main` derives from `new Date()`/`Date.now()`; the ISO
rendering of dates is abstracted as provided strings. -/
structure Clock where
  nowMs : ℤ
  nowIso : String
  mondayIso : String
  reportStartIso : String
  reportEndIso : String

/-- Observable outcome of one run of `main`: `fatal` is a diagnostic plus
`process.exit(1)`; `skippedNoData` is the warn-and-`process.exit(0)` path
of lines 303-306 (no body built, no publish call); `issue` is the payload
handed to the publish request of line 330; `crashed` is an exception
reaching the top-level `.catch` (exit 1). -/
inductive MainOutcome where
  | fatal (msg : String)
  | skippedNoData
  | issue (title body : String)
  | crashed
  deriving DecidableEq, Repr

/-- Process exit status of each outcome (`issue` covers the runs that reach
the publish call; its eventual status depends on the HTTP response, outside
this model). -/
def exitCode : MainOutcome → ℕ
  | .fatal _ => 1
  | .skippedNoData => 0
  | .issue _ _ => 0
  | .crashed => 1

/-- Embedding of `main()`, as a function of the environment, the log-file state and the
clock. -/
def mainModel (token repo : Option String) (file : LogFileOutcome) (clock : Clock) :
    MainOutcome :=
  match token with
  | none => .fatal "GITHUB_TOKEN not set — report generation requires GitHub Actions environment"
  | some _ =>
    match repo with
    | none => .fatal "GITHUB_REPOSITORY not set — report generation requires GitHub Actions environment"
    | some _ =>
      let log := (readLog file).log
      let recentRecords := filterRecentRecords log REPORT_WINDOW_DAYS clock.nowMs
      if recentRecords.isEmpty then .skippedNoData
      else
        match aggregatorReport recentRecords clock.reportStartIso clock.reportEndIso clock.nowIso with
        | .error _ => .crashed
        | .ok body =>
          .issue ("Weekly Platform Health Report — week of " ++ clock.mondayIso) body

/-! ## Concrete inputs used by the scenario checks and counterexamples -/

/-- A successful check record for `endpoint` with latency `rt`. -/
def okRec (endpoint : String) (rt : ℤ) : HealthRecord :=
  { timestampMs := some 0, endpoint := endpoint, ok := true, responseTimeMs := some rt,
    contentTypeValid := true, anomalyDetected := false, extraMetricValue := none }

/-- A timed-out check record for `endpoint` (no latency measured). -/
def failRec (endpoint : String) : HealthRecord :=
  { timestampMs := some 0, endpoint := endpoint, ok := false, responseTimeMs := none,
    contentTypeValid := false, anomalyDetected := false, extraMetricValue := none }

/-- Scenario A of the specification: 21 records for one endpoint, 20 of them
`ok` with latencies in [100..120] ms, one timeout. -/
def scenarioRecords : List HealthRecord :=
  [okRec "Structures" 100, okRec "Structures" 100, okRec "Structures" 100,
   okRec "Structures" 100, okRec "Structures" 100, okRec "Structures" 100,
   okRec "Structures" 100, okRec "Structures" 100, okRec "Structures" 100,
   okRec "Structures" 100, okRec "Structures" 120, okRec "Structures" 120,
   okRec "Structures" 120, okRec "Structures" 120, okRec "Structures" 120,
   okRec "Structures" 120, okRec "Structures" 120, okRec "Structures" 120,
   okRec "Structures" 120, okRec "Structures" 120, failRec "Structures"]

/-- The stats `computeEndpointStats` produces on `scenarioRecords`. -/
def scenarioStats : EndpointStats :=
  { uptimePercent := 95.24, avgResponseMs := some 110, minResponseMs := some 100,
    maxResponseMs := some 120, anomalyCount := 0, latestExtraMetric := none }

/-- A window in which only the `Structures` endpoint has (one, successful)
record; the two other endpoints have no records at all. -/
def recsOneEndpoint : List HealthRecord := [okRec "Structures" 100]

/-- The stats map `main` builds from `recsOneEndpoint`. -/
def statsOneEndpoint : StatsMap := fun n => computeEndpointStats recsOneEndpoint n

/-- A window in which every endpoint is fully up but slow: one `ok` record
of 4000 ms latency per endpoint. -/
def recsSlow : List HealthRecord :=
  [okRec "Structures" 4000, okRec "Data Query" 4000, okRec "Codelists" 4000]

/-- The stats map `main` builds from `recsSlow`. -/
def statsSlow : StatsMap := fun n => computeEndpointStats recsSlow n

/-- Per-endpoint stats of each entry of `recsSlow`. -/
def slowStats : EndpointStats :=
  { uptimePercent := 100, avgResponseMs := some 4000, minResponseMs := some 4000,
    maxResponseMs := some 4000, anomalyCount := 0, latestExtraMetric := none }

/-- A window whose first endpoint is completely down and the others are up. -/
def recsFirstDown : List HealthRecord :=
  [failRec "Structures", okRec "Data Query" 100, okRec "Codelists" 100]

/-- The stats map `main` builds from `recsFirstDown`. -/
def statsFirstDown : StatsMap := fun n => computeEndpointStats recsFirstDown n

/-- Stats of a single timed-out record: 0% uptime, no latency data. -/
def downStats : EndpointStats :=
  { uptimePercent := 0, avgResponseMs := none, minResponseMs := none,
    maxResponseMs := none, anomalyCount := 0, latestExtraMetric := none }

/-- Stats of a single 100 ms `ok` record: 100% uptime. -/
def upStats : EndpointStats :=
  { uptimePercent := 100, avgResponseMs := some 100, minResponseMs := some 100,
    maxResponseMs := some 100, anomalyCount := 0, latestExtraMetric := none }

/-- Mixed window for the content-type validity counterexample: three `ok`
records across the three endpoints, one of them with an invalid
content type. -/
def recsCtMixed : List HealthRecord :=
  [okRec "Structures" 100, okRec "Data Query" 100,
   { okRec "Codelists" 100 with contentTypeValid := false }]

/-- Window for the average-latency witness: one `ok` record with a latency
and one timed-out record, both for `Structures`. -/
def recsAvgMixed : List HealthRecord := [okRec "Structures" 100, failRec "Structures"]

/-- Window in which every record timed out. -/
def recsAllTimeout : List HealthRecord := [failRec "Structures"]

/-- A fixed clock for the `main` witnesses. -/
def clock0 : Clock :=
  { nowMs := 0, nowIso := "1970-01-01T00:00:00.000Z", mondayIso := "1969-12-29",
    reportStartIso := "1969-12-25", reportEndIso := "1970-01-01" }

/-! ## The prefix/suffix decomposition of the rendered report around the
`Generated` timestamp -/

/-- Everything the rendered report prints before the generation timestamp. -/
def reportPre (reportStart reportEnd : String) : String :=
  "## statpulse Weekly Health Report" ++ "\n" ++ "" ++ "\n" ++
    ("**Period:** " ++ reportStart ++ " → " ++ reportEnd) ++ "\n" ++ "**Generated:** "

/-- Everything the rendered report prints after the generation timestamp. -/
def reportPost (stats : StatsMap) (recentRecords : List HealthRecord)
    (assessment : String) : String :=
  " UTC" ++ "\n" ++
  joinLines
    (["**Total checks:** " ++ toString recentRecords.length ++ " (3 endpoints × " ++
        toString (jsRound ((recentRecords.length : ℚ) / (ENDPOINT_NAMES.length : ℚ))) ++ " runs)",
      "",
      "### Endpoint Summary",
      "",
      "| Endpoint | Uptime | Avg Response | Min | Max | Anomalies |",
      "|---|---|---|---|---|---|"]
     ++ ENDPOINT_NAMES.map (endpointRow stats)
     ++ ["",
      "### Catalogue Metrics (latest)",
      "- **Data Structures (DSDs):** " ++ formatNumber (latestExtraOf stats "Structures"),
      "- **Codelists:** " ++ formatNumber (latestExtraOf stats "Codelists"),
      "",
      "### Assessment",
      assessment,
      "",
      "### KPI Status",
      "",
      "| KPI | Target | This Week | Status |",
      "|---|---|---|---|",
      "| API Availability | ≥ 99.5% | " ++ pctCell (overallUptimePctOf stats) ++ " | " ++
        kpiEmoji (overallUptimePctOf stats) UPTIME_KPI_TARGET_PCT KpiDirection.higher ++ " |",
      "| Avg Response Time | < 3000ms | " ++ msCell (overallAvgMsOf stats) ++ " | " ++
        kpiEmoji (overallAvgMsOf stats) RESPONSE_KPI_TARGET_MS KpiDirection.lower ++ " |",
      "| Content-Type Validity | 100% | " ++ pctCell (contentTypeValidityPctOf recentRecords) ++ " | " ++
        kpiEmoji (contentTypeValidityPctOf recentRecords) 100 KpiDirection.higher ++ " |",
      "",
      "---",
      "*Generated automatically by [statpulse](https://erenkahraman.github.io/statpulse) — SDMX API monitoring for the SIS-CC .Stat Suite platform.*"])

/-! ## Helper lemmas -/

/-- Rounding to two decimals preserves non-negativity. -/
lemma round2_nonneg {q : ℚ} (h : 0 ≤ q) : 0 ≤ round2 q := by
  unfold round2
  have h0 : (0 : ℤ) ≤ ⌊q * 100 + 1/2⌋ := by
    rw [Int.le_floor]
    push_cast
    linarith
  have : (0 : ℚ) ≤ ((⌊q * 100 + 1/2⌋ : ℤ) : ℚ) := by exact_mod_cast h0
  linarith

/-- Rounding to two decimals keeps values at most 100 at most 100. -/
lemma round2_le_100 {q : ℚ} (h : q ≤ 100) : round2 q ≤ 100 := by
  unfold round2
  have hmono : ⌊q * 100 + 1/2⌋ ≤ ⌊(10000 : ℚ) + 1/2⌋ := Int.floor_le_floor (by linarith)
  have hval : ⌊(10000 : ℚ) + 1/2⌋ = 10000 := by
    rw [Int.floor_eq_iff]
    norm_num
  have hle : ((⌊q * 100 + 1/2⌋ : ℤ) : ℚ) ≤ 10000 := by exact_mod_cast hval ▸ hmono
  linarith

/-- Cancelling a common prefix and suffix of a string equation. -/
lemma append_middle_cancel {pre post t₁ t₂ : String}
    (h : pre ++ (t₁ ++ post) = pre ++ (t₂ ++ post)) : t₁ = t₂ := by
  have hd := congrArg String.data h
  simp only [String.data_append] at hd
  have h1 := List.append_cancel_left hd
  have h2 := List.append_cancel_right h1
  exact congrArg String.mk h2

/-- The rendered report is the fixed prefix, then the generation timestamp,
then the fixed suffix. -/
lemma renderReport_split (stats : StatsMap) (recs : List HealthRecord)
    (reportStart reportEnd generatedAt assessment : String) :
    renderReport stats recs reportStart reportEnd generatedAt assessment =
      reportPre reportStart reportEnd ++
        (generatedAt ++ reportPost stats recs assessment) := by
  simp only [renderReport, reportPre, reportPost, ENDPOINT_NAMES, List.map_cons,
    List.map_nil, List.cons_append, List.nil_append, joinLines, String.append_assoc]

/-- Lemma: `buildIssueBody` either throws for every generation instant, or renders
`pre ++ timestamp ++ post` for fixed `pre`/`post`. -/
lemma buildIssueBody_split (stats : StatsMap) (recs : List HealthRecord)
    (reportStart reportEnd : String) :
    (∀ t, buildIssueBody stats recs reportStart reportEnd t = .error ()) ∨
    (∃ pre post : String, ∀ t,
      buildIssueBody stats recs reportStart reportEnd t = .ok (pre ++ (t ++ post))) := by
  cases h : assessmentOf stats with
  | error u =>
    left
    intro t
    cases u
    simp [buildIssueBody, h]
  | ok a =>
    right
    exact ⟨reportPre reportStart reportEnd, reportPost stats recs a, fun t => by
      simp [buildIssueBody, h, renderReport_split]⟩

/-! ## Claim theorems -/

/-- C7: for every non-null aggregate value the KPI verdict is three-level
and follows the stated policy — for the higher-is-better metrics (uptime,
target 99.5%; content-type validity, target 100%) on-target iff the value
reaches the target, critical iff it is below the separate 95% floor,
warning in between; for the lower-is-better latency metric (target
3000 ms) on-target iff at most the target, critical iff above 1.5× the
target (4500 ms), warning in between. -/
theorem kpiEmoji_three_level_policy :
    ∀ v : ℚ,
      (kpiEmoji (.num v) UPTIME_KPI_TARGET_PCT .higher = "✅" ↔ UPTIME_KPI_TARGET_PCT ≤ v) ∧
      (kpiEmoji (.num v) UPTIME_KPI_TARGET_PCT .higher = "⚠️" ↔
        UPTIME_CRITICAL_THRESHOLD_PCT ≤ v ∧ v < UPTIME_KPI_TARGET_PCT) ∧
      (kpiEmoji (.num v) UPTIME_KPI_TARGET_PCT .higher = "🔴" ↔
        v < UPTIME_CRITICAL_THRESHOLD_PCT) ∧
      (kpiEmoji (.num v) 100 .higher = "✅" ↔ 100 ≤ v) ∧
      (kpiEmoji (.num v) 100 .higher = "⚠️" ↔ UPTIME_CRITICAL_THRESHOLD_PCT ≤ v ∧ v < 100) ∧
      (kpiEmoji (.num v) 100 .higher = "🔴" ↔ v < UPTIME_CRITICAL_THRESHOLD_PCT) ∧
      (kpiEmoji (.num v) RESPONSE_KPI_TARGET_MS .lower = "✅" ↔ v ≤ RESPONSE_KPI_TARGET_MS) ∧
      (kpiEmoji (.num v) RESPONSE_KPI_TARGET_MS .lower = "⚠️" ↔
        RESPONSE_KPI_TARGET_MS < v ∧ v ≤ 4500) ∧
      (kpiEmoji (.num v) RESPONSE_KPI_TARGET_MS .lower = "🔴" ↔ 4500 < v) := by
  intro v
  refine ⟨?_, ?_, ?_, ?_, ?_, ?_, ?_, ?_, ?_⟩ <;>
    simp only [kpiEmoji, jsGe, jsLe, UPTIME_KPI_TARGET_PCT, UPTIME_CRITICAL_THRESHOLD_PCT,
      RESPONSE_KPI_TARGET_MS, decide_eq_true_eq] <;>
    split_ifs <;>
    simp_all <;>
    (try norm_num at *) <;>
    (try linarith)

/-- C8: reading the persisted log never propagates an error — a missing
file yields the empty history, an unreadable or unparseable file or a
non-array document yields the empty history with a warning, and in every
case `readLog` returns an array (the function is total: every throw inside
the `try` block is caught). -/
theorem readLog_degrades_gracefully :
    ((readLog .enoent).log = [] ∧ (readLog .enoent).warned = true) ∧
    ((readLog .readError).log = [] ∧ (readLog .readError).warned = true) ∧
    ((readLog .parseError).log = [] ∧ (readLog .parseError).warned = true) ∧
    ((readLog (.parsed .nonArray)).log = [] ∧ (readLog (.parsed .nonArray)).warned = true) ∧
    (∀ a, readLog (.parsed (.arr a)) = { log := a, warned := false }) ∧
    (∀ o, (readLog o).log = [] ∨ ∃ a, o = .parsed (.arr a) ∧ (readLog o).log = a) := by
  refine ⟨⟨rfl, rfl⟩, ⟨rfl, rfl⟩, ⟨rfl, rfl⟩, ⟨rfl, rfl⟩, fun a => rfl, fun o => ?_⟩
  rcases o with _ | _ | _ | v
  · exact Or.inl rfl
  · exact Or.inl rfl
  · exact Or.inl rfl
  · rcases v with a | _
    · exact Or.inr ⟨a, rfl, rfl⟩
    · exact Or.inl rfl

/-- C9: a run whose filtered window is empty produces no report and exits
cleanly with status 0, while a missing `GITHUB_TOKEN` or
`GITHUB_REPOSITORY` is fatal at startup with a diagnostic and exit
status 1. -/
theorem main_empty_window_vs_missing_config :
    ∀ (token repo : Option String) (file : LogFileOutcome) (clock : Clock),
      (token = none →
        mainModel token repo file clock =
          .fatal "GITHUB_TOKEN not set — report generation requires GitHub Actions environment" ∧
        exitCode (mainModel token repo file clock) = 1) ∧
      (∀ tk, token = some tk → repo = none →
        mainModel token repo file clock =
          .fatal "GITHUB_REPOSITORY not set — report generation requires GitHub Actions environment" ∧
        exitCode (mainModel token repo file clock) = 1) ∧
      (∀ tk rp, token = some tk → repo = some rp →
        filterRecentRecords (readLog file).log REPORT_WINDOW_DAYS clock.nowMs = [] →
        mainModel token repo file clock = .skippedNoData ∧
        exitCode (mainModel token repo file clock) = 0) := by
  intro token repo file clock
  refine ⟨?_, ?_, ?_⟩
  · rintro rfl
    exact ⟨rfl, rfl⟩
  · rintro tk rfl rfl
    exact ⟨rfl, rfl⟩
  · rintro tk rp rfl rfl hempty
    constructor
    · simp [mainModel, hempty]
    · simp [mainModel, hempty, exitCode]

/-- C9 witness: concrete runs — missing token, missing repository, and an
absent log file (hence an empty window) with credentials present. -/
theorem main_empty_window_vs_missing_config_witness :
    mainModel none none .enoent clock0 =
      .fatal "GITHUB_TOKEN not set — report generation requires GitHub Actions environment" ∧
    mainModel (some "token") none .enoent clock0 =
      .fatal "GITHUB_REPOSITORY not set — report generation requires GitHub Actions environment" ∧
    mainModel (some "token") (some "owner/repo") .enoent clock0 = .skippedNoData ∧
    exitCode (mainModel (some "token") (some "owner/repo") .enoent clock0) = 0 := by
  refine ⟨?_, ?_, ?_, ?_⟩
  · exact ((main_empty_window_vs_missing_config none none .enoent clock0).1 rfl).1
  · exact ((main_empty_window_vs_missing_config (some "token") none .enoent clock0).2.1
      "token" rfl rfl).1
  · exact ((main_empty_window_vs_missing_config (some "token") (some "owner/repo") .enoent
      clock0).2.2 "token" "owner/repo" rfl rfl rfl).1
  · exact ((main_empty_window_vs_missing_config (some "token") (some "owner/repo") .enoent
      clock0).2.2 "token" "owner/repo" rfl rfl rfl).2

/-- C10: `filterRecentRecords` keeps exactly the records whose timestamp
parsed to an instant at or after `now − days·86400000` ms; a record whose
timestamp is missing or unparseable is always excluded (the Invalid-Date
comparison is false), and the filter is total on malformed records. -/
theorem filterRecentRecords_window :
    ∀ (log : List HealthRecord) (days nowMs : ℤ) (r : HealthRecord),
      r ∈ filterRecentRecords log days nowMs ↔
        r ∈ log ∧ ∃ t, r.timestampMs = some t ∧ nowMs - days * 86400000 ≤ t := by
  intro log days nowMs r
  simp only [filterRecentRecords, List.mem_filter]
  rcases h : r.timestampMs with _ | t
  · simp [h]
  · simp only [h, decide_eq_true_eq, Option.some.injEq]
    constructor
    · rintro ⟨hmem, hle⟩
      exact ⟨hmem, t, rfl, by linarith [hle]⟩
    · rintro ⟨hmem, t', ht', hle⟩
      cases ht'
      exact ⟨hmem, by linarith⟩

/-- C6 counterexample: on a window of three `ok` records of which two have
a valid content type, the source computes 66.7 (rounded to one decimal),
which is not the exact ratio (2/3)·100 = 200/3 stated by the claim. -/
theorem contentTypeValidity_rounded_cex :
    contentTypeValidityPctOf recsCtMixed = JsVal.num (667/10) ∧
    ((recsCtMixed.filter (fun r => r.ok && r.contentTypeValid)).length : ℚ) /
      ((recsCtMixed.filter (fun r => r.ok)).length : ℚ) * 100 = 200/3 ∧
    (667/10 : ℚ) ≠ 200/3 := by
  refine ⟨?_, ?_, by norm_num⟩
  · simp only [contentTypeValidityPctOf, recsCtMixed, okRec, List.filter]
    norm_num [round1, Int.floor_eq_iff]
  · simp only [recsCtMixed, okRec, List.filter]
    norm_num

/-- C6 amended: the content-type validity percentage is the ratio of
`ok ∧ contentTypeValid` records to `ok` records over all endpoints'
records combined, times 100, rounded half-up to one decimal place; it is
`null` (never 0%) when the window has no `ok` record. -/
theorem contentTypeValidity_combined_null_safe :
    ∀ records : List HealthRecord,
      contentTypeValidityPctOf records =
        if (records.filter (fun r => r.ok)).length = 0 then JsVal.null
        else JsVal.num (round1
          (((records.filter (fun r => r.ok && r.contentTypeValid)).length : ℚ) /
            ((records.filter (fun r => r.ok)).length : ℚ) * 100)) := by
  intro records
  have hff : (records.filter (fun r => r.ok)).filter (fun r => r.contentTypeValid) =
      records.filter (fun r => r.ok && r.contentTypeValid) := by
    rw [List.filter_filter]
    simp only [Bool.and_comm]
  simp only [contentTypeValidityPctOf, hff]

/-- Under the invariant that a latency is present only on successful
checks, restricting the latency extraction to `ok` records changes
nothing. -/
lemma filterMap_rt_restrict (name : String) :
    ∀ l : List HealthRecord, (∀ r ∈ l, r.responseTimeMs ≠ none → r.ok = true) →
      (l.filter (fun r => r.endpoint == name)).filterMap (fun r => r.responseTimeMs) =
      (l.filter (fun r => r.endpoint == name && r.ok)).filterMap
        (fun r => r.responseTimeMs) := by
  intro l
  induction l with
  | nil => intro _; rfl
  | cons r rs ih =>
    intro h
    have hr := h r (List.mem_cons_self r rs)
    have ihs := ih (fun x hx hne => h x (List.mem_cons_of_mem r hx) hne)
    by_cases he : r.endpoint == name
    · by_cases hok : r.ok
      · rcases hrt : r.responseTimeMs with _ | t <;>
          simp [List.filter_cons, he, hok, List.filterMap_cons, hrt, ihs]
      · have hnone : r.responseTimeMs = none := by
          by_contra hne
          exact hok (hr hne)
        simp [List.filter_cons, he, hok, List.filterMap_cons, hnone, ihs]
    · simp [List.filter_cons, he, ihs]

/-- C5: under the data-model invariant that a latency is present only on
successful checks, the average latency of `computeEndpointStats` is the
mean over exactly the records with `ok = true` and a present
`responseTimeMs`; and for an endpoint whose every record in the window
lacks a latency, the average is `null`, never zero. -/
theorem avgResponseMs_ok_present_only :
    ∀ (records : List HealthRecord) (name : String),
      (∀ r ∈ records, r.responseTimeMs ≠ none → r.ok = true) →
      ∀ s, computeEndpointStats records name = some s →
        (s.avgResponseMs =
          (let okPresent : List ℤ :=
            (records.filter (fun r => r.endpoint == name && r.ok)).filterMap
              (fun r => r.responseTimeMs)
           if okPresent.isEmpty then none
           else some (jsRound ((okPresent.sum : ℚ) / (okPresent.length : ℚ))))) ∧
        ((∀ r ∈ records, r.endpoint = name → r.responseTimeMs = none) →
          s.avgResponseMs = none) := by
  intro records name hinv s hs
  have hsame := filterMap_rt_restrict name records hinv
  have havg : s.avgResponseMs =
      (let validTimes : List ℤ := (records.filter (fun r => r.endpoint == name)).filterMap
          (fun r => r.responseTimeMs)
       if validTimes.isEmpty then none
       else some (jsRound ((validTimes.sum : ℚ) / (validTimes.length : ℚ)))) := by
    simp only [computeEndpointStats] at hs
    split at hs
    · exact absurd hs (by simp)
    · cases hs
      rfl
  constructor
  · rw [havg]
    simp only [hsame]
  · intro hall
    rw [havg]
    have : (records.filter (fun r => r.endpoint == name)).filterMap
        (fun r => r.responseTimeMs) = [] := by
      rw [List.filterMap_eq_nil_iff]
      intro r hr
      have hm := List.mem_filter.mp hr
      exact hall r hm.1 (by simpa using hm.2)
    simp [this]

/-- C5 witness: a window with one 100 ms `ok` record and one timed-out
record yields an average of 100 ms (the timeout is excluded), and a window
in which every record timed out yields `null`. -/
theorem avgResponseMs_ok_present_only_witness :
    (∃ s, computeEndpointStats recsAvgMixed "Structures" = some s ∧
      s.avgResponseMs = some 100) ∧
    (∃ s, computeEndpointStats recsAllTimeout "Structures" = some s ∧
      s.avgResponseMs = none) := by
  constructor
  · obtain ⟨s, hs⟩ := Option.ne_none_iff_exists'.mp
      (by decide : computeEndpointStats recsAvgMixed "Structures" ≠ none)
    refine ⟨s, hs, ?_⟩
    have h := (avgResponseMs_ok_present_only recsAvgMixed "Structures" (by decide) s hs).1
    rw [h]
    simp only [recsAvgMixed, okRec, failRec, List.filter, List.filterMap]
    norm_num [jsRound, Int.floor_eq_iff]
  · obtain ⟨s, hs⟩ := Option.ne_none_iff_exists'.mp
      (by decide : computeEndpointStats recsAllTimeout "Structures" ≠ none)
    refine ⟨s, hs, ?_⟩
    exact (avgResponseMs_ok_present_only recsAllTimeout "Structures" (by decide) s hs).2
      (by decide)

/-- Evaluation of `computeEndpointStats` on Scenario A's 21 records. -/
lemma scenarioRecords_eval :
    computeEndpointStats scenarioRecords "Structures" = some scenarioStats := by
  have hfilter : scenarioRecords.filter (fun r => r.endpoint == "Structures") =
      scenarioRecords := by decide
  have hne : scenarioRecords.isEmpty = false := by decide
  have hok : (scenarioRecords.filter (fun r => r.ok)).length = 20 := by decide
  have hlen : scenarioRecords.length = 21 := by decide
  have htimes : scenarioRecords.filterMap (fun r => r.responseTimeMs) =
      [100, 100, 100, 100, 100, 100, 100, 100, 100, 100,
       120, 120, 120, 120, 120, 120, 120, 120, 120, 120] := by decide
  have hsum : ([100, 100, 100, 100, 100, 100, 100, 100, 100, 100,
      120, 120, 120, 120, 120, 120, 120, 120, 120, 120] : List ℤ).sum = 2200 := by decide
  have hmin : ([100, 100, 100, 100, 100, 100, 100, 100, 100,
      120, 120, 120, 120, 120, 120, 120, 120, 120, 120] : List ℤ).foldl min 100 = 100 := by
    decide
  have hmax : ([100, 100, 100, 100, 100, 100, 100, 100, 100,
      120, 120, 120, 120, 120, 120, 120, 120, 120, 120] : List ℤ).foldl max 100 = 120 := by
    decide
  have hanom : (scenarioRecords.filter (fun r => r.anomalyDetected)).length = 0 := by decide
  have hlast : scenarioRecords.getLast?.bind (fun r => r.extraMetricValue) = none := by decide
  simp only [computeEndpointStats, hfilter, hne, hok, hlen, htimes, hsum, hmin, hmax,
    hanom, hlast, Bool.false_eq_true, if_false, List.isEmpty_cons, Option.some.injEq]
  norm_num [scenarioStats, round2, jsRound, Int.floor_eq_iff]

/-- C4: the uptime percentage is the `ok` fraction times 100 rounded to two
decimals, always within [0, 100], with `null` (no division by zero) for an
endpoint with no records; and on Scenario A's window of 21 records with 20
successes the value is 95.24% with the near-miss KPI glyph. -/
theorem uptimePercent_formula_and_range :
    (∀ (records : List HealthRecord) (name : String),
      (computeEndpointStats records name = none ↔
        records.filter (fun r => r.endpoint == name) = []) ∧
      (∀ s, computeEndpointStats records name = some s →
        s.uptimePercent =
          round2 ((((records.filter (fun r => r.endpoint == name)).filter
              (fun r => r.ok)).length : ℚ) /
            ((records.filter (fun r => r.endpoint == name)).length : ℚ) * 100) ∧
        0 ≤ s.uptimePercent ∧ s.uptimePercent ≤ 100)) ∧
    computeEndpointStats scenarioRecords "Structures" = some scenarioStats ∧
    scenarioStats.uptimePercent = 95.24 ∧
    kpiEmoji (JsVal.num scenarioStats.uptimePercent) UPTIME_KPI_TARGET_PCT
      KpiDirection.higher = "⚠️" := by
  refine ⟨?_, scenarioRecords_eval, rfl, ?_⟩
  · intro records name
    constructor
    · simp only [computeEndpointStats]
      rcases hl : records.filter (fun r => r.endpoint == name) with _ | ⟨r, rs⟩ <;>
        simp [hl]
    · intro s hs
      simp only [computeEndpointStats] at hs
      split at hs
      · exact absurd hs (by simp)
      · rename_i hne
        cases hs
        refine ⟨rfl, ?_, ?_⟩
        · apply round2_nonneg
          positivity
        · apply round2_le_100
          have hlpos : 0 < ((records.filter (fun r => r.endpoint == name)).length : ℚ) := by
            have hnil : records.filter (fun r => r.endpoint == name) ≠ [] := by
              intro h
              exact hne (by simp [h])
            have := List.length_pos.mpr hnil
            exact_mod_cast this
          have hle : (((records.filter (fun r => r.endpoint == name)).filter
              (fun r => r.ok)).length : ℚ) ≤
              ((records.filter (fun r => r.endpoint == name)).length : ℚ) := by
            exact_mod_cast List.length_filter_le _ _
          have hdiv : (((records.filter (fun r => r.endpoint == name)).filter
              (fun r => r.ok)).length : ℚ) /
              ((records.filter (fun r => r.endpoint == name)).length : ℚ) ≤ 1 :=
            (div_le_one hlpos).mpr hle
          linarith
  · simp only [kpiEmoji, jsGe, scenarioStats, UPTIME_KPI_TARGET_PCT,
      UPTIME_CRITICAL_THRESHOLD_PCT, decide_eq_true_eq]
    norm_num

/-- C4 witness: the formula and range instantiated on Scenario A's concrete
21-record window. -/
theorem uptimePercent_formula_and_range_witness :
    computeEndpointStats scenarioRecords "Structures" = some scenarioStats ∧
    scenarioStats.uptimePercent =
      round2 ((((scenarioRecords.filter (fun r => r.endpoint == "Structures")).filter
          (fun r => r.ok)).length : ℚ) /
        ((scenarioRecords.filter (fun r => r.endpoint == "Structures")).length : ℚ) * 100) ∧
    0 ≤ scenarioStats.uptimePercent ∧ scenarioStats.uptimePercent ≤ 100 := by
  have h := (uptimePercent_formula_and_range.1 scenarioRecords "Structures").2 scenarioStats
    uptimePercent_formula_and_range.2.1
  exact ⟨uptimePercent_formula_and_range.2.1, h.1, h.2.1, h.2.2⟩

/-- Evaluation scheme for `computeEndpointStats` once the list-level
components have been computed. -/
lemma computeEndpointStats_eval (records : List HealthRecord) (name : String)
    (er : List HealthRecord) (okn len : ℕ) (times : List ℤ) (anom : ℕ) (lex : Option ℤ)
    (hfilter : records.filter (fun r => r.endpoint == name) = er)
    (hne : er.isEmpty = false)
    (hok : (er.filter (fun r => r.ok)).length = okn)
    (hlen : er.length = len)
    (htimes : er.filterMap (fun r => r.responseTimeMs) = times)
    (hanom : (er.filter (fun r => r.anomalyDetected)).length = anom)
    (hlast : er.getLast?.bind (fun r => r.extraMetricValue) = lex) :
    computeEndpointStats records name = some
      { uptimePercent := round2 ((okn : ℚ) / (len : ℚ) * 100),
        avgResponseMs :=
          if times.isEmpty then none
          else some (jsRound ((times.sum : ℚ) / (times.length : ℚ))),
        minResponseMs := match times with | [] => none | t :: ts => some (ts.foldl min t),
        maxResponseMs := match times with | [] => none | t :: ts => some (ts.foldl max t),
        anomalyCount := anom, latestExtraMetric := lex } := by
  simp only [computeEndpointStats, hfilter, hne, hok, hlen, htimes, hanom, hlast,
    Bool.false_eq_true, if_false]
  rcases times with _ | ⟨t, ts⟩ <;> rfl

/-- Stats of the only populated endpoint of `recsOneEndpoint`. -/
lemma statsOneEndpoint_S : statsOneEndpoint "Structures" = some upStats := by
  have h := computeEndpointStats_eval recsOneEndpoint "Structures" recsOneEndpoint 1 1
    [100] 0 none (by decide) (by decide) (by decide) (by decide) (by decide) (by decide)
    (by decide)
  rw [show statsOneEndpoint "Structures" = computeEndpointStats recsOneEndpoint "Structures"
    from rfl, h]
  norm_num [upStats, round2, jsRound, Int.floor_eq_iff]

/-- The other two endpoints of `recsOneEndpoint` have no records. -/
lemma statsOneEndpoint_D : statsOneEndpoint "Data Query" = none := by decide

/-- The other two endpoints of `recsOneEndpoint` have no records. -/
lemma statsOneEndpoint_C : statsOneEndpoint "Codelists" = none := by decide

/-- Per-endpoint stats of `recsSlow`. -/
lemma statsSlow_S : statsSlow "Structures" = some slowStats := by
  have h := computeEndpointStats_eval recsSlow "Structures" [okRec "Structures" 4000] 1 1
    [4000] 0 none (by decide) (by decide) (by decide) (by decide) (by decide) (by decide)
    (by decide)
  rw [show statsSlow "Structures" = computeEndpointStats recsSlow "Structures" from rfl, h]
  norm_num [slowStats, round2, jsRound, Int.floor_eq_iff]

/-- Per-endpoint stats of `recsSlow`. -/
lemma statsSlow_D : statsSlow "Data Query" = some slowStats := by
  have h := computeEndpointStats_eval recsSlow "Data Query" [okRec "Data Query" 4000] 1 1
    [4000] 0 none (by decide) (by decide) (by decide) (by decide) (by decide) (by decide)
    (by decide)
  rw [show statsSlow "Data Query" = computeEndpointStats recsSlow "Data Query" from rfl, h]
  norm_num [slowStats, round2, jsRound, Int.floor_eq_iff]

/-- Per-endpoint stats of `recsSlow`. -/
lemma statsSlow_C : statsSlow "Codelists" = some slowStats := by
  have h := computeEndpointStats_eval recsSlow "Codelists" [okRec "Codelists" 4000] 1 1
    [4000] 0 none (by decide) (by decide) (by decide) (by decide) (by decide) (by decide)
    (by decide)
  rw [show statsSlow "Codelists" = computeEndpointStats recsSlow "Codelists" from rfl, h]
  norm_num [slowStats, round2, jsRound, Int.floor_eq_iff]

/-- Per-endpoint stats of `recsFirstDown`. -/
lemma statsFirstDown_S : statsFirstDown "Structures" = some downStats := by
  have h := computeEndpointStats_eval recsFirstDown "Structures" [failRec "Structures"] 0 1
    [] 0 none (by decide) (by decide) (by decide) (by decide) (by decide) (by decide)
    (by decide)
  rw [show statsFirstDown "Structures" = computeEndpointStats recsFirstDown "Structures"
    from rfl, h]
  norm_num [downStats, round2, Int.floor_eq_iff]

/-- Per-endpoint stats of `recsFirstDown`. -/
lemma statsFirstDown_D : statsFirstDown "Data Query" = some upStats := by
  have h := computeEndpointStats_eval recsFirstDown "Data Query" [okRec "Data Query" 100] 1 1
    [100] 0 none (by decide) (by decide) (by decide) (by decide) (by decide) (by decide)
    (by decide)
  rw [show statsFirstDown "Data Query" = computeEndpointStats recsFirstDown "Data Query"
    from rfl, h]
  norm_num [upStats, round2, jsRound, Int.floor_eq_iff]

/-- Per-endpoint stats of `recsFirstDown`. -/
lemma statsFirstDown_C : statsFirstDown "Codelists" = some upStats := by
  have h := computeEndpointStats_eval recsFirstDown "Codelists" [okRec "Codelists" 100] 1 1
    [100] 0 none (by decide) (by decide) (by decide) (by decide) (by decide) (by decide)
    (by decide)
  rw [show statsFirstDown "Codelists" = computeEndpointStats recsFirstDown "Codelists"
    from rfl, h]
  norm_num [upStats, round2, jsRound, Int.floor_eq_iff]

/-- C1 (code bug): in a window where `Structures` has one successful record
and the other two endpoints have none, the overall uptime and latency
aggregates are `NaN` — the `undefined` produced by optional chaining on the
`null` stats entries passes the `v !== null` filter and poisons both
means — and `buildIssueBody` then throws a `TypeError` on
`stats['Data Query'].uptimePercent`; the claimed exclusion of null
aggregates (which would give a 100% / 100 ms overall mean) never happens. -/
theorem overall_mean_poisoned_by_missing_endpoint :
    statsOneEndpoint "Structures" = some upStats ∧
    statsOneEndpoint "Data Query" = none ∧
    statsOneEndpoint "Codelists" = none ∧
    overallUptimePctOf statsOneEndpoint = JsVal.nan ∧
    overallAvgMsOf statsOneEndpoint = JsVal.nan ∧
    buildIssueBody statsOneEndpoint recsOneEndpoint "2025-10-04" "2025-10-11"
      "2025-10-11T00:00:00.000Z" = .error () := by
  refine ⟨statsOneEndpoint_S, statsOneEndpoint_D, statsOneEndpoint_C, ?_, ?_, ?_⟩
  · simp [overallUptimePctOf, validUptimesOf, ENDPOINT_NAMES, statsOneEndpoint_S,
      statsOneEndpoint_D, statsOneEndpoint_C, jsStrictNeNull, jsSum, jsAdd, jsDivNat,
      jsToFixed2, List.filter]
  · simp [overallAvgMsOf, validAvgMsOf, ENDPOINT_NAMES, statsOneEndpoint_S,
      statsOneEndpoint_D, statsOneEndpoint_C, upStats, jsStrictNeNull, jsSum, jsAdd,
      jsDivNat, jsMathRound, List.filter]
  · norm_num [buildIssueBody, assessmentOf, someUptimeCritical, ENDPOINT_NAMES,
      statsOneEndpoint_S, statsOneEndpoint_D, upStats, UPTIME_CRITICAL_THRESHOLD_PCT]

/-- C2 counterexample: with every endpoint fully up but slow (4000 ms), the
average-latency KPI misses its 3000 ms target (its status glyph is the
near-miss, not the on-target one), yet the overall assessment is the
on-target text — the assessment never consults the latency KPI. -/
theorem assessment_ignores_missed_latency_kpi :
    assessmentOf statsSlow = .ok "✅ Platform health is within all KPI targets." ∧
    overallAvgMsOf statsSlow = JsVal.num 4000 ∧
    RESPONSE_KPI_TARGET_MS < 4000 ∧
    kpiEmoji (overallAvgMsOf statsSlow) RESPONSE_KPI_TARGET_MS KpiDirection.lower = "⚠️" := by
  have hov : overallAvgMsOf statsSlow = JsVal.num 4000 := by
    norm_num [overallAvgMsOf, validAvgMsOf, ENDPOINT_NAMES, statsSlow_S, statsSlow_D,
      statsSlow_C, slowStats, jsStrictNeNull, jsSum, jsAdd, jsDivNat, jsMathRound,
      jsRound, Int.floor_eq_iff, List.filter]
  refine ⟨?_, hov, by norm_num [RESPONSE_KPI_TARGET_MS], ?_⟩
  · norm_num [assessmentOf, someUptimeCritical, ENDPOINT_NAMES, statsSlow_S, statsSlow_D,
      statsSlow_C, slowStats, UPTIME_CRITICAL_THRESHOLD_PCT, allUptimeOnTargetOf,
      validUptimesOf, jsStrictNeNull, jsGe, UPTIME_KPI_TARGET_PCT, anyAnomaliesOf,
      List.filter]
  · rw [hov]
    norm_num [kpiEmoji, jsLe, RESPONSE_KPI_TARGET_MS]

/-- C2 amended: when every endpoint has a non-null stats entry the
assessment follows a strict precedence — critical if any endpoint's uptime
is below the 95% floor; otherwise warning if any endpoint's uptime misses
the 99.5% uptime target or any endpoint's anomaly count is positive;
otherwise on-target.  In particular the assessment is a function of the
endpoints' uptime aggregates and anomaly counts alone, so the latency and
content-type KPIs never influence it. -/
theorem assessment_precedence_uptime_and_anomalies :
    ∀ (stats : StatsMap) (s1 s2 s3 : EndpointStats),
      stats "Structures" = some s1 → stats "Data Query" = some s2 →
      stats "Codelists" = some s3 →
      assessmentOf stats = .ok
        (if s1.uptimePercent < UPTIME_CRITICAL_THRESHOLD_PCT ∨
            s2.uptimePercent < UPTIME_CRITICAL_THRESHOLD_PCT ∨
            s3.uptimePercent < UPTIME_CRITICAL_THRESHOLD_PCT then
          "🔴 Critical: availability below acceptable threshold."
        else if s1.uptimePercent < UPTIME_KPI_TARGET_PCT ∨
            s2.uptimePercent < UPTIME_KPI_TARGET_PCT ∨
            s3.uptimePercent < UPTIME_KPI_TARGET_PCT ∨
            0 < s1.anomalyCount ∨ 0 < s2.anomalyCount ∨ 0 < s3.anomalyCount then
          "⚠️ One or more KPI thresholds require attention. Review anomaly log."
        else
          "✅ Platform health is within all KPI targets.") := by
  intro stats s1 s2 s3 h1 h2 h3
  have hv : validUptimesOf stats =
      [.num s1.uptimePercent, .num s2.uptimePercent, .num s3.uptimePercent] := by
    simp [validUptimesOf, ENDPOINT_NAMES, h1, h2, h3, jsStrictNeNull, List.filter]
  have hwarn : (!allUptimeOnTargetOf stats || anyAnomaliesOf stats) = true ↔
      (s1.uptimePercent < UPTIME_KPI_TARGET_PCT ∨ s2.uptimePercent < UPTIME_KPI_TARGET_PCT ∨
       s3.uptimePercent < UPTIME_KPI_TARGET_PCT ∨ 0 < s1.anomalyCount ∨
       0 < s2.anomalyCount ∨ 0 < s3.anomalyCount) := by
    simp [allUptimeOnTargetOf, hv, anyAnomaliesOf, ENDPOINT_NAMES, h1, h2, h3, jsGe,
      not_le, List.all, List.any]
    tauto
  by_cases hcrit : s1.uptimePercent < UPTIME_CRITICAL_THRESHOLD_PCT ∨
      s2.uptimePercent < UPTIME_CRITICAL_THRESHOLD_PCT ∨
      s3.uptimePercent < UPTIME_CRITICAL_THRESHOLD_PCT
  · rw [if_pos hcrit]
    have hsc : someUptimeCritical stats ENDPOINT_NAMES = .ok true := by
      rcases hcrit with hc | hc | hc <;>
        simp [someUptimeCritical, ENDPOINT_NAMES, h1, h2, h3, hc, ite_self]
    simp [assessmentOf, hsc]
  · push_neg at hcrit
    obtain ⟨hc1, hc2, hc3⟩ := hcrit
    have hsc : someUptimeCritical stats ENDPOINT_NAMES = .ok false := by
      simp [someUptimeCritical, ENDPOINT_NAMES, h1, h2, h3, not_lt.mpr hc1,
        not_lt.mpr hc2, not_lt.mpr hc3]
    rw [if_neg (by push_neg; exact ⟨hc1, hc2, hc3⟩)]
    by_cases hw : s1.uptimePercent < UPTIME_KPI_TARGET_PCT ∨
        s2.uptimePercent < UPTIME_KPI_TARGET_PCT ∨
        s3.uptimePercent < UPTIME_KPI_TARGET_PCT ∨ 0 < s1.anomalyCount ∨
        0 < s2.anomalyCount ∨ 0 < s3.anomalyCount
    · rw [if_pos hw]
      have hb := hwarn.mpr hw
      simp [assessmentOf, hsc, hb]
    · rw [if_neg hw]
      have hb : (!allUptimeOnTargetOf stats || anyAnomaliesOf stats) = false := by
        rcases hbv : (!allUptimeOnTargetOf stats || anyAnomaliesOf stats) with _ | _
        · rfl
        · exact absurd (hwarn.mp hbv) hw
      simp [assessmentOf, hsc, hb]

/-- C2 amended witness: in a window whose first endpoint is completely down
and the others are up, the precedence picks the critical text. -/
theorem assessment_precedence_uptime_and_anomalies_witness :
    assessmentOf statsFirstDown = .ok "🔴 Critical: availability below acceptable threshold." := by
  have h := assessment_precedence_uptime_and_anomalies statsFirstDown downStats upStats
    upStats statsFirstDown_S statsFirstDown_D statsFirstDown_C
  rw [h, if_pos]
  exact Or.inl (by norm_num [downStats, UPTIME_CRITICAL_THRESHOLD_PCT])

/-- C3 counterexample: the same log content and window, rendered at two
generation instants one second apart, produce different report bytes — the
body embeds `new Date().toISOString()` in its `Generated` line. -/
theorem aggregatorReport_clock_dependent :
    aggregatorReport recsFirstDown "2025-10-04" "2025-10-11" "2025-10-11T00:00:00.000Z" ≠
    aggregatorReport recsFirstDown "2025-10-04" "2025-10-11" "2025-10-11T00:00:01.000Z" := by
  have hass : assessmentOf statsFirstDown =
      .ok "🔴 Critical: availability below acceptable threshold." := by
    norm_num [assessmentOf, someUptimeCritical, ENDPOINT_NAMES, statsFirstDown_S,
      downStats, UPTIME_CRITICAL_THRESHOLD_PCT]
  have key : ∀ t, aggregatorReport recsFirstDown "2025-10-04" "2025-10-11" t =
      .ok (reportPre "2025-10-04" "2025-10-11" ++ (t ++ reportPost statsFirstDown
        recsFirstDown "🔴 Critical: availability below acceptable threshold.")) := by
    intro t
    simp only [aggregatorReport]
    rw [show (fun n => computeEndpointStats recsFirstDown n) = statsFirstDown from rfl]
    simp [buildIssueBody, hass, renderReport_split]
  intro heq
  rw [key, key] at heq
  have hmid := append_middle_cancel (Except.ok.inj heq)
  exact absurd hmid (by decide)

/-- C3 amended: the rendered report is a pure function of the log window,
the window bounds and the generation instant — for a fixed window either
every generation instant throws, or there are fixed bytes `pre`/`post`
such that the report at instant `t` is exactly `pre ++ t ++ post` (i.e.
two runs differ at most in the embedded generation timestamp). -/
theorem aggregatorReport_pure_given_instant :
    ∀ (recentRecords : List HealthRecord) (reportStart reportEnd : String),
      (∀ t, aggregatorReport recentRecords reportStart reportEnd t = .error ()) ∨
      (∃ pre post : String, ∀ t,
        aggregatorReport recentRecords reportStart reportEnd t = .ok (pre ++ (t ++ post))) := by
  intro recentRecords reportStart reportEnd
  exact buildIssueBody_split (fun n => computeEndpointStats recentRecords n) recentRecords
    reportStart reportEnd

end StatPulse
